import Mathlib

/-!
Shallow embedding of two Anjay LwM2M data-model objects (the Time object,
OID 3333, and the Portfolio object, OID 16) and of the generic secure-transport
configuration resolver (`anjay_security_generic.c`), together with proofs of
the specification claims about them.

Instance lists (`AVS_LIST`) are modelled as Lean lists; instance identifiers
(`anjay_iid_t`, a 16-bit integer) as `Nat` (no arithmetic overflow is ever
exercised by the handlers); C strings in fixed buffers as `String`; byte
buffers with an explicit size as `List Nat`, the empty list standing for a
zero-size ("absent") field.  Out-of-scope collaborators (allocation, resource
storage reads, the notification sink, the input context) are passed in as
explicit oracle parameters, so every handler is a pure function.
-/

namespace Anjay

/-- Error codes returned by the data-model handlers, mirroring the
`ANJAY_ERR_*` constants used in the two object implementations. -/
inductive AnjayErr
  | internal
  | notFound
  | methodNotAllowed
deriving DecidableEq, Repr

/-! ## Time object (OID 3333) -/

/-- Mirrors `time_instance_t`: iid, `application_type` (a 64-byte buffer),
`application_type_backup`, and the notify bookkeeping timestamp. -/
structure TimeInstance where
  iid : Nat
  application_type : String
  application_type_backup : String
  last_notify_timestamp : Int
deriving DecidableEq, Repr

/-- Mirrors `find_instance` for the time object: walk the sorted list,
return the instance with matching iid, early-exit once an iid exceeds the
target. -/
def time_find_instance : List TimeInstance → Nat → Option TimeInstance
  | [], _ => none
  | it :: rest, iid =>
    if it.iid = iid then some it
    else if it.iid > iid then none
    else time_find_instance rest iid

/-- Mirrors `init_instance`: sets the iid and clears `application_type`.
The node itself comes from `AVS_LIST_NEW_ELEMENT` (calloc), so the backup
buffer and the timestamp start zeroed. -/
def init_instance (iid : Nat) : TimeInstance :=
  { iid := iid
    application_type := ""
    application_type_backup := ""
    last_notify_timestamp := 0 }

/-- Mirrors the insertion loop of `add_instance`: advance while the current
node's iid is not greater than the new one, then splice the new node in. -/
def time_insert (created : TimeInstance) : List TimeInstance → List TimeInstance
  | [] => [created]
  | it :: rest =>
    if it.iid > created.iid then created :: it :: rest
    else it :: time_insert created rest

/-- Mirrors `instance_create` for the time object.  `alloc` is the outcome of
`AVS_LIST_NEW_ELEMENT`; on allocation failure the handler returns
`ANJAY_ERR_INTERNAL`.  Note the C code only `assert`s that the iid is fresh
(`assert(find_instance(obj, iid) == NULL)` inside `add_instance`); it performs
no runtime presence check. -/
def time_instance_create (alloc : Bool) (instances : List TimeInstance)
    (iid : Nat) : Except AnjayErr (List TimeInstance) :=
  if alloc then .ok (time_insert (init_instance iid) instances)
  else .error .internal

/-- Mirrors `instance_remove` for the time object: delete the first node with
a matching iid; falling off the end or passing the target hits `assert(0)`
and returns `ANJAY_ERR_NOT_FOUND`. -/
def time_instance_remove : List TimeInstance → Nat → Except AnjayErr (List TimeInstance)
  | [], _ => .error .notFound
  | it :: rest, iid =>
    if it.iid = iid then .ok rest
    else if it.iid > iid then .error .notFound
    else
      match time_instance_remove rest iid with
      | .ok rest2 => .ok (it :: rest2)
      | .error e => .error e

/-- Total version of removal used when folding mutation sequences: on the
(contract-violating) not-found path the C handler leaves the list unchanged. -/
def time_remove_list (instances : List TimeInstance) (iid : Nat) : List TimeInstance :=
  match time_instance_remove instances iid with
  | .ok rest => rest
  | .error _ => instances

/-- Mirrors `instance_reset` for the time object: clear `application_type`
of the (asserted-present) instance; absent instance leaves the list unchanged
(the C code would fail its assertion there). -/
def time_instance_reset : List TimeInstance → Nat → List TimeInstance
  | [], _ => []
  | it :: rest, iid =>
    if it.iid = iid then { it with application_type := "" } :: rest
    else if it.iid > iid then it :: rest
    else it :: time_instance_reset rest iid

/-- Mirrors `resource_write` for RID 5750 (Application Type): overwrite the
string of the (asserted-present) instance, with the input-context read
modelled as succeeding with value `v`. -/
def time_resource_write_app : List TimeInstance → Nat → String → List TimeInstance
  | [], _, _ => []
  | it :: rest, iid, v =>
    if it.iid = iid then { it with application_type := v } :: rest
    else if it.iid > iid then it :: rest
    else time_resource_write_app rest iid v |>.cons it

/-- Mirrors `transaction_begin` for the time object: copy every instance's
live `application_type` into its backup buffer. -/
def time_transaction_begin (instances : List TimeInstance) : List TimeInstance :=
  instances.map fun element =>
    { element with application_type_backup := element.application_type }

/-- Mirrors `transaction_rollback` for the time object: copy every instance's
backup buffer back over the live `application_type`. -/
def time_transaction_rollback (instances : List TimeInstance) : List TimeInstance :=
  instances.map fun element =>
    { element with application_type := element.application_type_backup }

/-- Mirrors `time_object_create`: instance 0 is auto-created and its
application type set to "Clock 0". -/
def time_object_create : List TimeInstance :=
  [{ init_instance 0 with application_type := "Clock 0" }]

/-- Mirrors `time_object_notify`.  `current_timestamp` is the single clock
reading taken at the top of the function; `notifyOk iid` is the outcome of
`anjay_notify_changed` for that instance (`true` = returned 0).  Returns the
updated instance list together with the iids for which a change notification
was issued, in iteration order. -/
def time_object_notify (current_timestamp : Int) (notifyOk : Nat → Bool) :
    List TimeInstance → List TimeInstance × List Nat
  | [] => ([], [])
  | it :: rest =>
    let tail := time_object_notify current_timestamp notifyOk rest
    if it.last_notify_timestamp ≠ current_timestamp then
      if notifyOk it.iid then
        ({ it with last_notify_timestamp := current_timestamp } :: tail.1,
         it.iid :: tail.2)
      else (it :: tail.1, it.iid :: tail.2)
    else (it :: tail.1, tail.2)

/-! ## Portfolio object (OID 16) -/

/-- Number of Identity slots: `_MAX_IDENTITY_TYPE` = 4. -/
abbrev MAX_IDENTITY_TYPE : Nat := 4

/-- Mirrors `portfolio_instance_t`: iid, the `has_identity[4]` presence array
and the `identity_value[4][256]` value array, modelled as functions on
`Fin 4`. -/
structure PortfolioInstance where
  iid : Nat
  has_identity : Fin MAX_IDENTITY_TYPE → Bool
  identity_value : Fin MAX_IDENTITY_TYPE → String

/-- Mirrors `portfolio_t`: the live instance list and the transaction backup
list.  The `NULL` backup pointer is modelled as the empty list (an empty
`AVS_LIST` is `NULL`). -/
structure Portfolio where
  instances : List PortfolioInstance
  backup : List PortfolioInstance

/-- A freshly calloc-ed portfolio instance node: all presence flags false,
all value buffers zeroed. -/
def portfolio_blank_instance (iid : Nat) : PortfolioInstance :=
  { iid := iid
    has_identity := fun _ => false
    identity_value := fun _ => "" }

/-- Mirrors `find_instance` for the portfolio: first matching iid, early exit
once an iid exceeds the target. -/
def portfolio_find_instance : List PortfolioInstance → Nat → Option PortfolioInstance
  | [], _ => none
  | it :: rest, iid =>
    if it.iid = iid then some it
    else if it.iid > iid then none
    else portfolio_find_instance rest iid

/-- Mirrors the insertion loop of the portfolio `instance_create`: advance
while the current node's iid is not greater than the new one, then splice. -/
def portfolio_insert (created : PortfolioInstance) :
    List PortfolioInstance → List PortfolioInstance
  | [] => [created]
  | it :: rest =>
    if it.iid > created.iid then created :: it :: rest
    else it :: portfolio_insert created rest

/-- Mirrors `instance_create` for the portfolio.  `alloc` is the outcome of
`AVS_LIST_NEW_ELEMENT` (`ANJAY_ERR_INTERNAL` on failure).  Note: unlike the
time object, this handler performs no presence check of any kind — not even
an assertion — before inserting. -/
def portfolio_instance_create (alloc : Bool) (obj : Portfolio) (iid : Nat) :
    Except AnjayErr Portfolio :=
  if alloc then
    .ok { obj with instances := portfolio_insert (portfolio_blank_instance iid) obj.instances }
  else .error .internal

/-- Same removal loop as the time object, on portfolio nodes. -/
def portfolio_remove_list : List PortfolioInstance → Nat → List PortfolioInstance
  | [], _ => []
  | it :: rest, iid =>
    if it.iid = iid then rest
    else if it.iid > iid then it :: rest
    else it :: portfolio_remove_list rest iid

/-- Mirrors `instance_remove` for the portfolio (error result included). -/
def portfolio_instance_remove (obj : Portfolio) (iid : Nat) :
    Except AnjayErr Portfolio :=
  if (portfolio_find_instance obj.instances iid).isSome then
    .ok { obj with instances := portfolio_remove_list obj.instances iid }
  else .error .notFound

/-- Updates the first instance with a matching iid (the one `find_instance`
returns), leaving the list unchanged when the instance is absent (the C code
would fail its `assert(inst)` there). -/
def portfolio_update_instance (f : PortfolioInstance → PortfolioInstance) :
    List PortfolioInstance → Nat → List PortfolioInstance
  | [], _ => []
  | it :: rest, iid =>
    if it.iid = iid then f it :: rest
    else if it.iid > iid then it :: rest
    else it :: portfolio_update_instance f rest iid

/-- Mirrors `resource_write` for RID 0 (Identity): a riid at or beyond
`_MAX_IDENTITY_TYPE` fails with `ANJAY_ERR_NOT_FOUND`; otherwise the
input-context read is modelled as succeeding with value `v`, the slot's
presence flag is set and its value overwritten. -/
def portfolio_resource_write (obj : Portfolio) (iid riid : Nat) (v : String) :
    Except AnjayErr Portfolio :=
  if h : riid < MAX_IDENTITY_TYPE then
    .ok { obj with
          instances := portfolio_update_instance
            (fun inst =>
              { inst with
                has_identity := Function.update inst.has_identity ⟨riid, h⟩ true
                identity_value := Function.update inst.identity_value ⟨riid, h⟩ v })
            obj.instances iid }
  else .error .notFound

/-- Total wrapper around `portfolio_resource_write`: a write that reports an
error (out-of-range riid) leaves the object unchanged. -/
def portfolio_write_total (obj : Portfolio) (iid riid : Nat) (v : String) :
    Portfolio :=
  match portfolio_resource_write obj iid riid v with
  | .ok next => next
  | .error _ => obj

/-- Mirrors `instance_reset` for the portfolio: zero both arrays of the
(asserted-present) instance. -/
def portfolio_instance_reset (obj : Portfolio) (iid : Nat) : Portfolio :=
  { obj with
    instances := portfolio_update_instance
      (fun inst =>
        { inst with
          has_identity := fun _ => false
          identity_value := fun _ => "" })
      obj.instances iid }

/-- Mirrors `list_resource_instances` for RID 0: emit, in ascending slot
order, the sub-identifiers whose presence flag is set. -/
def portfolio_list_resource_instances (inst : PortfolioInstance) : List Nat :=
  (List.finRange MAX_IDENTITY_TYPE).filter (fun i => inst.has_identity i)
    |>.map Fin.val

/-- Mirrors `transaction_begin` for the portfolio: requires no outstanding
backup (`assert(!obj->backup)`), clones the whole instance list into the
backup.  `alloc` is the outcome of `AVS_LIST_SIMPLE_CLONE`; a failed clone of
a non-empty list yields `ANJAY_ERR_INTERNAL`. -/
def portfolio_transaction_begin (alloc : Bool) (obj : Portfolio) :
    Except AnjayErr Portfolio :=
  if alloc ∨ obj.instances.isEmpty then
    .ok { obj with backup := obj.instances }
  else .error .internal

/-- Mirrors `transaction_commit` for the portfolio: discard the backup. -/
def portfolio_transaction_commit (obj : Portfolio) : Portfolio :=
  { obj with backup := [] }

/-- Mirrors `transaction_rollback` for the portfolio: free the live list,
move the backup into its place, null out the backup pointer. -/
def portfolio_transaction_rollback (obj : Portfolio) : Portfolio :=
  { instances := obj.backup, backup := [] }

/-! ## Secure-transport configuration resolver (`anjay_security_generic.c`) -/

/-- The `anjay_security_mode_t` enumeration. -/
inductive SecurityMode
  | psk
  | rpk
  | certificate
  | nosec
  | est
deriving DecidableEq, Repr

/-- Modelled from the spec: numeric codes of the security-mode resource
(`anjay_security_mode_t` lives in a public header that is not among the
sources).  The claims only need the five codes to be distinct, with a
dedicated code reserved for the raw-public-key mode. -/
def ANJAY_SECURITY_PSK : Int := 0

/-- Modelled from the spec: the code reserved for the raw-public-key mode. -/
def ANJAY_SECURITY_RPK : Int := 1

/-- Modelled from the spec: the code for certificate mode. -/
def ANJAY_SECURITY_CERTIFICATE : Int := 2

/-- Modelled from the spec: the code for no-security mode. -/
def ANJAY_SECURITY_NOSEC : Int := 3

/-- Modelled from the spec: the code for EST (enrollment over secure
transport) mode. -/
def ANJAY_SECURITY_EST : Int := 4

/-- The outcome of `get_security_mode`.  The C function returns -1 on all
three failure paths; the three paths are distinct branches of its `switch`
and are distinguished observably by their log messages ("could not read...",
"unsupported security mode", "invalid security mode"), which the error
constructors carry as distinctions. -/
inductive SecModeError
  | readFailure
  | unsupportedMode
  | malformedMode
deriving DecidableEq, Repr

/-- Mirrors `get_security_mode`: read the security-mode resource as an i64
(`readModeRes`, `none` = read failure), then classify: the RPK code is
explicitly rejected as unsupported; the four supported codes are returned;
anything else is rejected as invalid. -/
def get_security_mode (readModeRes : Option Int) :
    Except SecModeError SecurityMode :=
  match readModeRes with
  | none => .error .readFailure
  | some mode =>
    if mode = ANJAY_SECURITY_RPK then .error .unsupportedMode
    else if mode = ANJAY_SECURITY_NOSEC then .ok .nosec
    else if mode = ANJAY_SECURITY_PSK then .ok .psk
    else if mode = ANJAY_SECURITY_CERTIFICATE then .ok .certificate
    else if mode = ANJAY_SECURITY_EST then .ok .est
    else .error .malformedMode

/-- The `anjay_transport_security_t` enumeration. -/
inductive TransportSecurity
  | undefined
  | plaintext
  | encrypted
deriving DecidableEq, Repr

/-- The fields of `anjay_transport_info_t` that the resolver consults. -/
structure TransportInfo where
  security : TransportSecurity
  uri_scheme : String

/-- Mirrors `security_matches_transport`: an `UNDEFINED` transport security
accepts every mode; otherwise the transport must be encrypted exactly when
the mode is not `NOSEC`. -/
def security_matches_transport (security_mode : SecurityMode)
    (transport_info : TransportInfo) : Bool :=
  if transport_info.security = .undefined then true
  else
    let is_secure_transport := transport_info.security = .encrypted
    let needs_secure_transport := security_mode ≠ .nosec
    decide (is_secure_transport ↔ needs_secure_transport)

/-- Modelled from the spec: resource ids of the three credential resources of
the Security object (the `ANJAY_DM_RID_SECURITY_*` constants live in a header
that is not among the sources); only their distinctness matters. -/
def RID_SECURITY_PK_OR_IDENTITY : Nat := 3

/-- Modelled from the spec: resource id of the server PK-or-identity
credential. -/
def RID_SECURITY_SERVER_PK_OR_IDENTITY : Nat := 4

/-- Modelled from the spec: resource id of the secret-key credential. -/
def RID_SECURITY_SECRET_KEY : Nat := 5

/-- Mirrors `anjay_server_dtls_keys_t`: three fixed-capacity buffers with
explicit sizes, each modelled as a byte list whose length is the size; the
empty list is a zero-size (absent) field.  The enclosing structure is
calloc-ed, so all three start empty. -/
structure DtlsKeys where
  pk_or_identity : List Nat
  server_pk_or_identity : List Nat
  secret_key : List Nat
deriving DecidableEq, Repr

/-- The per-field requirement level of `get_dtls_keys` (`value_status_t`). -/
inductive ValueStatus
  | skip
  | optionalValue
  | requiredValue
deriving DecidableEq, Repr

/-- Mirrors `get_dtls_keys`.  `readRes rid` is the outcome of
`_anjay_dm_read_resource` on the Security-object resource `rid` (`none` =
failure, including buffer overflow).  For `NOSEC` nothing is read.  Otherwise
the three credential resources are read in order — local PK-or-identity
(required), server PK-or-identity (required unless the mode is PSK, then
optional), secret key (required) — and a failed required read aborts
immediately.  Returns the keys (or `none` on abort) together with the list of
resource ids actually read. -/
def get_dtls_keys (readRes : Nat → Option (List Nat))
    (security_mode : SecurityMode) : Option DtlsKeys × List Nat :=
  if security_mode = .nosec then (some ⟨[], [], []⟩, [])
  else
    let server_pk_status : ValueStatus :=
      if security_mode ≠ .psk then .requiredValue else .optionalValue
    match readRes RID_SECURITY_PK_OR_IDENTITY with
    | none => (none, [RID_SECURITY_PK_OR_IDENTITY])
    | some pk =>
      match readRes RID_SECURITY_SERVER_PK_OR_IDENTITY with
      | none =>
        if server_pk_status = .requiredValue then
          (none, [RID_SECURITY_PK_OR_IDENTITY,
                  RID_SECURITY_SERVER_PK_OR_IDENTITY])
        else
          match readRes RID_SECURITY_SECRET_KEY with
          | none => (none, [RID_SECURITY_PK_OR_IDENTITY,
                            RID_SECURITY_SERVER_PK_OR_IDENTITY,
                            RID_SECURITY_SECRET_KEY])
          | some sk => (some ⟨pk, [], sk⟩,
                        [RID_SECURITY_PK_OR_IDENTITY,
                         RID_SECURITY_SERVER_PK_OR_IDENTITY,
                         RID_SECURITY_SECRET_KEY])
      | some server_pk =>
        match readRes RID_SECURITY_SECRET_KEY with
        | none => (none, [RID_SECURITY_PK_OR_IDENTITY,
                          RID_SECURITY_SERVER_PK_OR_IDENTITY,
                          RID_SECURITY_SECRET_KEY])
        | some sk => (some ⟨pk, server_pk, sk⟩,
                      [RID_SECURITY_PK_OR_IDENTITY,
                       RID_SECURITY_SERVER_PK_OR_IDENTITY,
                       RID_SECURITY_SECRET_KEY])

/-- Mirrors `avs_net_certificate_info_t` as filled by `init_cert_security`:
the designated initializer names only `ignore_system_trust_store`,
`client_cert` and `client_key`, so `server_cert_validation` and `dane` start
zero (false). -/
structure CertificateInfo where
  ignore_system_trust_store : Bool
  client_cert : List Nat
  client_key : List Nat
  server_cert_validation : Bool
  dane : Bool
deriving DecidableEq, Repr

/-- Mirrors `init_cert_security` on its observable outputs: the certificate
info built from the keys, and the DANE TLSA association data when the record
pointer is hooked up (`none` = `security->dane_tlsa_record` left NULL).  The
C initializer leaves `server_cert_validation` and `dane` zeroed; both are set
to true only inside the `server_pk_or_identity_size > 0` branch. -/
def init_cert_security (keys : DtlsKeys) :
    CertificateInfo × Option (List Nat) :=
  let certificate_info : CertificateInfo :=
    { ignore_system_trust_store := true
      client_cert := keys.pk_or_identity
      client_key := keys.secret_key
      server_cert_validation := false
      dane := false }
  if keys.server_pk_or_identity.length > 0 then
    ({ certificate_info with server_cert_validation := true, dane := true },
     some keys.server_pk_or_identity)
  else (certificate_info, none)

/-- The `security_info` union of the built descriptor: zeroed for `NOSEC`,
a PSK identity/key pair, or certificate material. -/
inductive SecurityInfo
  | empty
  | pskInfo (identity : List Nat) (key : List Nat)
  | certificates (info : CertificateInfo)
deriving DecidableEq, Repr

/-- Modelled from the spec: `_anjay_connection_init_psk_security` is declared
in an internal header not among the sources; per §4.7 it builds the PSK
identity/key pair from the local identity and secret key and can fail only on
allocation (`pskAlloc`). -/
def init_psk_security (pskAlloc : Bool) (keys : DtlsKeys) :
    Option SecurityInfo :=
  if pskAlloc then some (.pskInfo keys.pk_or_identity keys.secret_key)
  else none

/-- Mirrors `init_security`: dispatch on the classified mode; `NOSEC` leaves
the calloc-ed descriptor as is, PSK delegates to the PSK initializer,
certificate and EST delegate to `init_cert_security`, RPK (unreachable after
classification) fails. -/
def init_security (pskAlloc : Bool) (security_mode : SecurityMode)
    (keys : DtlsKeys) : Option (SecurityInfo × Option (List Nat)) :=
  match security_mode with
  | .nosec => some (.empty, none)
  | .psk =>
    match init_psk_security pskAlloc keys with
    | some info => some (info, none)
    | none => none
  | .certificate | .est =>
    some (.certificates (init_cert_security keys).1, (init_cert_security keys).2)
  | .rpk => none

/-- One observable collaborator interaction of the resolver, used to state
which stages a given run consults. -/
inductive ResolverEvent
  | readModeRes
  | transportCheck
  | credentialRead (rid : Nat)
deriving DecidableEq, Repr

/-- The fields of `anjay_connection_info_t` the resolver touches. -/
structure ConnectionInfo where
  transport_info : Option TransportInfo
  is_encrypted : Bool

/-- The descriptor assembled on success: the security info plus the optional
DANE TLSA association data. -/
structure SecurityConfigResult where
  security_info : SecurityInfo
  dane_tlsa_record : Option (List Nat)
deriving DecidableEq, Repr

/-- The transport-check event of a resolver run: present exactly when a
transport descriptor is known. -/
def transport_events (info : ConnectionInfo) : List ResolverEvent :=
  if info.transport_info.isSome then [.transportCheck] else []

/-- Mirrors the guard `inout_info->transport_info &&
!security_matches_transport(security_mode, inout_info->transport_info)` of
the resolver (as its negation): with no transport descriptor the check is
skipped and the pairing accepted. -/
def transport_ok (security_mode : SecurityMode) (info : ConnectionInfo) : Bool :=
  match info.transport_info with
  | some ti => security_matches_transport security_mode ti
  | none => true

/-- Mirrors `_anjay_connection_security_generic_get_config`.  `alloc` is the
outcome of the initial `avs_calloc`; the remaining oracles feed the stages.
The `||` chain short-circuits: classification runs only after a successful
allocation, the transport check runs only when a transport descriptor is
known (and only after successful classification), credential extraction and
descriptor initialization follow.  On any failure the partial descriptor is
freed and `NULL` returned with `inout_info` untouched; on success
`is_encrypted` is set to whether the mode is not `NOSEC`.  Also returns the
trace of collaborator interactions. -/
def get_config (alloc pskAlloc : Bool) (readModeRes : Option Int)
    (readRes : Nat → Option (List Nat)) (info : ConnectionInfo) :
    Option SecurityConfigResult × ConnectionInfo × List ResolverEvent :=
  if !alloc then (none, info, [])
  else
    match get_security_mode readModeRes with
    | .error _ => (none, info, [.readModeRes])
    | .ok security_mode =>
      if !transport_ok security_mode info then
        (none, info, .readModeRes :: transport_events info)
      else
        match get_dtls_keys readRes security_mode with
        | (none, rids) =>
          (none, info,
           .readModeRes :: transport_events info ++ rids.map .credentialRead)
        | (some keys, rids) =>
          match init_security pskAlloc security_mode keys with
          | none =>
            (none, info,
             .readModeRes :: transport_events info ++ rids.map .credentialRead)
          | some (security_info, dane) =>
            (some ⟨security_info, dane⟩,
             { info with is_encrypted := security_mode ≠ .nosec },
             .readModeRes :: transport_events info ++ rids.map .credentialRead)

/-! ## Mutation sequences

Machinery for stating the algebraic claims: explicit sequences of
data-model mutations, applied through the handlers above, together with
decidable contract-respect predicates (create only fresh iids, remove only
present ones). -/

/-- Mirrors `portfolio_object_create`: the object starts calloc-ed, with no
instances and no backup. -/
def portfolio_object_create : Portfolio :=
  { instances := [], backup := [] }

/-- An instance-lifecycle mutation on an object. -/
inductive RegOp
  | create (iid : Nat)
  | remove (iid : Nat)
deriving DecidableEq, Repr

/-- Applies a sequence of lifecycle mutations to the time object through
`time_instance_create` (allocation succeeding) and `time_instance_remove`. -/
def time_apply_ops : List RegOp → List TimeInstance → List TimeInstance
  | [], l => l
  | RegOp.create iid :: ops, l => time_apply_ops ops (time_insert (init_instance iid) l)
  | RegOp.remove iid :: ops, l => time_apply_ops ops (time_remove_list l iid)

/-- The contract on lifecycle sequences for the time object: every create
names an absent iid and every remove names a present one, at its point of
application. -/
def time_respects : List RegOp → List TimeInstance → Bool
  | [], _ => true
  | RegOp.create iid :: ops, l =>
    l.all (fun x => x.iid != iid) &&
      time_respects ops (time_insert (init_instance iid) l)
  | RegOp.remove iid :: ops, l =>
    l.any (fun x => x.iid == iid) && time_respects ops (time_remove_list l iid)

/-- A portfolio mutation: instance creation, instance removal, or a write to
one slot of the Identity resource. -/
inductive PfOp
  | create (iid : Nat)
  | remove (iid : Nat)
  | write (iid : Nat) (riid : Nat) (v : String)

/-- Applies a sequence of portfolio mutations through the handlers
(allocation succeeding); a handler that reports an error leaves the object
unchanged. -/
def portfolio_apply_ops : List PfOp → Portfolio → Portfolio
  | [], obj => obj
  | PfOp.create iid :: ops, obj =>
    portfolio_apply_ops ops
      { obj with
        instances := portfolio_insert (portfolio_blank_instance iid) obj.instances }
  | PfOp.remove iid :: ops, obj =>
    portfolio_apply_ops ops
      { obj with instances := portfolio_remove_list obj.instances iid }
  | PfOp.write iid riid v :: ops, obj =>
    portfolio_apply_ops ops (portfolio_write_total obj iid riid v)

/-- The contract on portfolio mutation sequences: creates name absent iids,
removes and writes name present ones. -/
def portfolio_respects : List PfOp → Portfolio → Bool
  | [], _ => true
  | PfOp.create iid :: ops, obj =>
    obj.instances.all (fun x => x.iid != iid) &&
      portfolio_respects ops
        { obj with
          instances := portfolio_insert (portfolio_blank_instance iid) obj.instances }
  | PfOp.remove iid :: ops, obj =>
    obj.instances.any (fun x => x.iid == iid) &&
      portfolio_respects ops
        { obj with instances := portfolio_remove_list obj.instances iid }
  | PfOp.write iid riid v :: ops, obj =>
    obj.instances.any (fun x => x.iid == iid) &&
      portfolio_respects ops (portfolio_write_total obj iid riid v)

/-- Applies a lifecycle-only (create/remove) sequence to the portfolio
object through its handlers (allocation succeeding). -/
def portfolio_apply_reg_ops : List RegOp → Portfolio → Portfolio
  | [], obj => obj
  | RegOp.create iid :: ops, obj =>
    portfolio_apply_reg_ops ops
      { obj with
        instances := portfolio_insert (portfolio_blank_instance iid) obj.instances }
  | RegOp.remove iid :: ops, obj =>
    portfolio_apply_reg_ops ops
      { obj with instances := portfolio_remove_list obj.instances iid }

/-- The contract on lifecycle-only sequences for the portfolio object. -/
def portfolio_reg_respects : List RegOp → Portfolio → Bool
  | [], _ => true
  | RegOp.create iid :: ops, obj =>
    obj.instances.all (fun x => x.iid != iid) &&
      portfolio_reg_respects ops
        { obj with
          instances := portfolio_insert (portfolio_blank_instance iid) obj.instances }
  | RegOp.remove iid :: ops, obj =>
    obj.instances.any (fun x => x.iid == iid) &&
      portfolio_reg_respects ops
        { obj with instances := portfolio_remove_list obj.instances iid }

/-- Applies a sequence of Application Type writes to the time object. -/
def time_apply_writes : List (Nat × String) → List TimeInstance → List TimeInstance
  | [], l => l
  | (iid, v) :: ws, l => time_apply_writes ws (time_resource_write_app l iid v)

/-- The observable state of a time-object instance: its iid, live
application type and notify bookkeeping field (the backup buffer is never
read outside rollback). -/
def time_observable (l : List TimeInstance) : List (Nat × String × Int) :=
  l.map fun i => (i.iid, i.application_type, i.last_notify_timestamp)

/-- Scenario A of the spec, run through the portfolio handlers: create
instance 1, write slot 0 of instance 1 = "X", begin, write slot 0 = "Y",
create instance 2, rollback. -/
def scenarioA : Except AnjayErr Portfolio :=
  portfolio_instance_create true portfolio_object_create 1 >>= fun s1 =>
  portfolio_resource_write s1 1 0 "X" >>= fun s2 =>
  portfolio_transaction_begin true s2 >>= fun s3 =>
  portfolio_resource_write s3 1 0 "Y" >>= fun s4 =>
  portfolio_instance_create true s4 2 >>= fun s5 =>
  .ok (portfolio_transaction_rollback s5)

/-! ## Helper lemmas -/

/-- Membership in the result of a time-object insertion. -/
theorem time_insert_mem {c y : TimeInstance} :
    ∀ {l : List TimeInstance}, y ∈ time_insert c l → y = c ∨ y ∈ l := by
  intro l
  induction l with
  | nil => simp [time_insert]
  | cons it rest ih =>
    simp only [time_insert]
    split
    · intro h
      rcases List.mem_cons.mp h with rfl | h2
      · exact Or.inl rfl
      · exact Or.inr h2
    · intro h
      rcases List.mem_cons.mp h with rfl | h2
      · exact Or.inr (List.mem_cons_self _ _)
      · rcases ih h2 with rfl | h3
        · exact Or.inl rfl
        · exact Or.inr (List.mem_cons_of_mem _ h3)

/-- The inserted node is a member of the result. -/
theorem time_insert_self_mem (c : TimeInstance) :
    ∀ l : List TimeInstance, c ∈ time_insert c l := by
  intro l
  induction l with
  | nil => simp [time_insert]
  | cons it rest ih =>
    simp only [time_insert]
    split
    · exact List.mem_cons_self _ _
    · exact List.mem_cons_of_mem _ ih

/-- Inserting a fresh iid preserves the strict-ascending invariant of the
time object's instance list. -/
theorem time_insert_pairwise {c : TimeInstance} :
    ∀ {l : List TimeInstance},
      l.Pairwise (fun a b => a.iid < b.iid) →
      (∀ x ∈ l, x.iid ≠ c.iid) →
      (time_insert c l).Pairwise (fun a b => a.iid < b.iid) := by
  intro l
  induction l with
  | nil => intro _ _; simp [time_insert]
  | cons it rest ih =>
    intro hs hf
    rcases List.pairwise_cons.mp hs with ⟨hhead, htail⟩
    simp only [time_insert]
    by_cases hgt : it.iid > c.iid
    · rw [if_pos hgt]
      refine List.pairwise_cons.mpr ⟨?_, hs⟩
      intro y hy
      rcases List.mem_cons.mp hy with rfl | hy2
      · exact hgt
      · exact lt_trans hgt (hhead y hy2)
    · rw [if_neg hgt]
      have hlt : it.iid < c.iid :=
        lt_of_le_of_ne (not_lt.mp hgt) (hf it (List.mem_cons_self _ _))
      refine List.pairwise_cons.mpr
        ⟨?_, ih htail (fun x hx => hf x (List.mem_cons_of_mem _ hx))⟩
      intro y hy
      rcases time_insert_mem hy with rfl | hy2
      · exact hlt
      · exact hhead y hy2

/-- Successful removal yields a sublist of the original instance list. -/
theorem time_instance_remove_ok_sublist :
    ∀ {l r : List TimeInstance} {iid : Nat},
      time_instance_remove l iid = .ok r → r.Sublist l := by
  intro l
  induction l with
  | nil => intro r iid h; simp [time_instance_remove] at h
  | cons it rest ih =>
    intro r iid h
    simp only [time_instance_remove] at h
    by_cases h1 : it.iid = iid
    · rw [if_pos h1] at h
      cases h
      exact List.sublist_cons_self _ _
    · rw [if_neg h1] at h
      by_cases h2 : it.iid > iid
      · rw [if_pos h2] at h; cases h
      · rw [if_neg h2] at h
        cases hrec : time_instance_remove rest iid with
        | ok rest2 =>
          rw [hrec] at h
          cases h
          exact List.Sublist.cons₂ _ (ih hrec)
        | error e => rw [hrec] at h; cases h

/-- The total removal wrapper yields a sublist of the original list. -/
theorem time_remove_list_sublist (l : List TimeInstance) (iid : Nat) :
    (time_remove_list l iid).Sublist l := by
  unfold time_remove_list
  cases h : time_instance_remove l iid with
  | ok r => exact time_instance_remove_ok_sublist h
  | error e => exact List.Sublist.refl l

/-- Any contract-respecting lifecycle sequence preserves the time object's
strict-ascending invariant. -/
theorem time_apply_ops_pairwise :
    ∀ (ops : List RegOp) (l : List TimeInstance),
      l.Pairwise (fun a b => a.iid < b.iid) →
      time_respects ops l = true →
      (time_apply_ops ops l).Pairwise (fun a b => a.iid < b.iid) := by
  intro ops
  induction ops with
  | nil => intro l hs _; simpa [time_apply_ops] using hs
  | cons op rest ih =>
    intro l hs hr
    cases op with
    | create iid =>
      simp only [time_respects, Bool.and_eq_true, List.all_eq_true] at hr
      obtain ⟨hfresh, hr2⟩ := hr
      simp only [time_apply_ops]
      refine ih _ (time_insert_pairwise hs ?_) hr2
      intro x hx
      simpa using hfresh x hx
    | remove iid =>
      simp only [time_respects, Bool.and_eq_true] at hr
      simp only [time_apply_ops]
      exact ih _ (hs.sublist (time_remove_list_sublist l iid)) hr.2

/-- Membership in the result of a portfolio insertion. -/
theorem portfolio_insert_mem {c y : PortfolioInstance} :
    ∀ {l : List PortfolioInstance}, y ∈ portfolio_insert c l → y = c ∨ y ∈ l := by
  intro l
  induction l with
  | nil => simp [portfolio_insert]
  | cons it rest ih =>
    simp only [portfolio_insert]
    split
    · intro h
      rcases List.mem_cons.mp h with rfl | h2
      · exact Or.inl rfl
      · exact Or.inr h2
    · intro h
      rcases List.mem_cons.mp h with rfl | h2
      · exact Or.inr (List.mem_cons_self _ _)
      · rcases ih h2 with rfl | h3
        · exact Or.inl rfl
        · exact Or.inr (List.mem_cons_of_mem _ h3)

/-- The inserted node is a member of the result. -/
theorem portfolio_insert_self_mem (c : PortfolioInstance) :
    ∀ l : List PortfolioInstance, c ∈ portfolio_insert c l := by
  intro l
  induction l with
  | nil => simp [portfolio_insert]
  | cons it rest ih =>
    simp only [portfolio_insert]
    split
    · exact List.mem_cons_self _ _
    · exact List.mem_cons_of_mem _ ih

/-- Inserting a fresh iid preserves the strict-ascending invariant of the
portfolio's instance list. -/
theorem portfolio_insert_pairwise {c : PortfolioInstance} :
    ∀ {l : List PortfolioInstance},
      l.Pairwise (fun a b => a.iid < b.iid) →
      (∀ x ∈ l, x.iid ≠ c.iid) →
      (portfolio_insert c l).Pairwise (fun a b => a.iid < b.iid) := by
  intro l
  induction l with
  | nil => intro _ _; simp [portfolio_insert]
  | cons it rest ih =>
    intro hs hf
    rcases List.pairwise_cons.mp hs with ⟨hhead, htail⟩
    simp only [portfolio_insert]
    by_cases hgt : it.iid > c.iid
    · rw [if_pos hgt]
      refine List.pairwise_cons.mpr ⟨?_, hs⟩
      intro y hy
      rcases List.mem_cons.mp hy with rfl | hy2
      · exact hgt
      · exact lt_trans hgt (hhead y hy2)
    · rw [if_neg hgt]
      have hlt : it.iid < c.iid :=
        lt_of_le_of_ne (not_lt.mp hgt) (hf it (List.mem_cons_self _ _))
      refine List.pairwise_cons.mpr
        ⟨?_, ih htail (fun x hx => hf x (List.mem_cons_of_mem _ hx))⟩
      intro y hy
      rcases portfolio_insert_mem hy with rfl | hy2
      · exact hlt
      · exact hhead y hy2

/-- Portfolio removal yields a sublist of the original instance list. -/
theorem portfolio_remove_list_sublist :
    ∀ (l : List PortfolioInstance) (iid : Nat),
      (portfolio_remove_list l iid).Sublist l := by
  intro l
  induction l with
  | nil => intro iid; simp [portfolio_remove_list]
  | cons it rest ih =>
    intro iid
    simp only [portfolio_remove_list]
    by_cases h1 : it.iid = iid
    · rw [if_pos h1]
      exact List.sublist_cons_self _ _
    · rw [if_neg h1]
      by_cases h2 : it.iid > iid
      · rw [if_pos h2]
      · rw [if_neg h2]
        exact List.Sublist.cons₂ _ (ih iid)

/-- Updating an instance in place preserves the iid sequence of the list. -/
theorem portfolio_update_map_iid {f : PortfolioInstance → PortfolioInstance}
    (hf : ∀ x, (f x).iid = x.iid) :
    ∀ (l : List PortfolioInstance) (iid : Nat),
      (portfolio_update_instance f l iid).map (·.iid) = l.map (·.iid) := by
  intro l
  induction l with
  | nil => intro iid; simp [portfolio_update_instance]
  | cons it rest ih =>
    intro iid
    simp only [portfolio_update_instance]
    by_cases h1 : it.iid = iid
    · rw [if_pos h1]; simp [hf]
    · rw [if_neg h1]
      by_cases h2 : it.iid > iid
      · rw [if_pos h2]
      · rw [if_neg h2]; simp [ih]

/-- A slot write leaves the iid sequence unchanged (also on the `NotFound`
path). -/
theorem portfolio_write_total_map_iid (obj : Portfolio) (iid riid : Nat)
    (v : String) :
    (portfolio_write_total obj iid riid v).instances.map (·.iid) =
      obj.instances.map (·.iid) := by
  by_cases h : riid < MAX_IDENTITY_TYPE
  · simp only [portfolio_write_total, portfolio_resource_write, dif_pos h]
    refine portfolio_update_map_iid ?_ obj.instances iid
    intro x
    rfl
  · simp only [portfolio_write_total, portfolio_resource_write, dif_neg h]

/-- Any contract-respecting lifecycle sequence preserves the portfolio's
strict-ascending invariant. -/
theorem portfolio_apply_reg_ops_pairwise :
    ∀ (ops : List RegOp) (obj : Portfolio),
      obj.instances.Pairwise (fun a b => a.iid < b.iid) →
      portfolio_reg_respects ops obj = true →
      (portfolio_apply_reg_ops ops obj).instances.Pairwise
        (fun a b => a.iid < b.iid) := by
  intro ops
  induction ops with
  | nil => intro obj hs _; simpa [portfolio_apply_reg_ops] using hs
  | cons op rest ih =>
    intro obj hs hr
    cases op with
    | create iid =>
      simp only [portfolio_reg_respects, Bool.and_eq_true, List.all_eq_true] at hr
      obtain ⟨hfresh, hr2⟩ := hr
      simp only [portfolio_apply_reg_ops]
      refine ih _ (portfolio_insert_pairwise hs ?_) hr2
      intro x hx
      simpa using hfresh x hx
    | remove iid =>
      simp only [portfolio_reg_respects, Bool.and_eq_true] at hr
      simp only [portfolio_apply_reg_ops]
      exact ih _ (hs.sublist (portfolio_remove_list_sublist obj.instances iid)) hr.2

/-- Portfolio mutations never touch the transaction backup list. -/
theorem portfolio_apply_ops_backup :
    ∀ (ops : List PfOp) (obj : Portfolio),
      (portfolio_apply_ops ops obj).backup = obj.backup := by
  intro ops
  induction ops with
  | nil => intro obj; rfl
  | cons op rest ih =>
    intro obj
    cases op with
    | create iid => simp only [portfolio_apply_ops]; rw [ih]
    | remove iid => simp only [portfolio_apply_ops]; rw [ih]
    | write iid riid v =>
      simp only [portfolio_apply_ops]
      rw [ih]
      by_cases h : riid < MAX_IDENTITY_TYPE
      · simp only [portfolio_write_total, portfolio_resource_write, dif_pos h]
      · simp only [portfolio_write_total, portfolio_resource_write, dif_neg h]

/-- An Application Type write never changes an instance's iid, backup buffer
or bookkeeping timestamp. -/
theorem time_write_skeleton (iid : Nat) (v : String) :
    ∀ l : List TimeInstance,
      (time_resource_write_app l iid v).map
          (fun i => (i.iid, i.application_type_backup, i.last_notify_timestamp)) =
        l.map (fun i => (i.iid, i.application_type_backup, i.last_notify_timestamp)) := by
  intro l
  induction l with
  | nil => rfl
  | cons it rest ih =>
    simp only [time_resource_write_app]
    by_cases h1 : it.iid = iid
    · rw [if_pos h1]; simp
    · rw [if_neg h1]
      by_cases h2 : it.iid > iid
      · rw [if_pos h2]
      · rw [if_neg h2]
        simp only [List.map_cons, List.cons_eq_cons]
        exact ⟨trivial, ih⟩

/-- A whole sequence of Application Type writes preserves the iid / backup /
bookkeeping skeleton. -/
theorem time_apply_writes_skeleton :
    ∀ (ws : List (Nat × String)) (l : List TimeInstance),
      (time_apply_writes ws l).map
          (fun i => (i.iid, i.application_type_backup, i.last_notify_timestamp)) =
        l.map (fun i => (i.iid, i.application_type_backup, i.last_notify_timestamp)) := by
  intro ws
  induction ws with
  | nil => intro l; rfl
  | cons w rest ih =>
    intro l
    cases w with
    | mk iid v =>
      simp only [time_apply_writes]
      rw [ih, time_write_skeleton]

/-! ## Resolver shape lemmas

One lemma per exit path of `_anjay_connection_security_generic_get_config`,
obtained by unfolding the short-circuiting `||` chain. -/

/-- Resolver run with failed initial allocation: nothing is consulted. -/
theorem get_config_alloc_fail (pskAlloc : Bool) (rm : Option Int)
    (rr : Nat → Option (List Nat)) (info : ConnectionInfo) :
    get_config false pskAlloc rm rr info = (none, info, []) := rfl

/-- Resolver run aborted by mode classification. -/
theorem get_config_mode_fail {rm : Option Int} {e : SecModeError}
    (hm : get_security_mode rm = .error e) (pskAlloc : Bool)
    (rr : Nat → Option (List Nat)) (info : ConnectionInfo) :
    get_config true pskAlloc rm rr info = (none, info, [.readModeRes]) := by
  simp [get_config, hm]

/-- Resolver run aborted by the transport compatibility check. -/
theorem get_config_transport_fail {rm : Option Int} {m : SecurityMode}
    (hm : get_security_mode rm = .ok m) {info : ConnectionInfo}
    (ht : transport_ok m info = false) (pskAlloc : Bool)
    (rr : Nat → Option (List Nat)) :
    get_config true pskAlloc rm rr info =
      (none, info, .readModeRes :: transport_events info) := by
  simp [get_config, hm, ht]

/-- Resolver run aborted by credential extraction. -/
theorem get_config_keys_fail {rm : Option Int} {m : SecurityMode}
    (hm : get_security_mode rm = .ok m) {info : ConnectionInfo}
    (ht : transport_ok m info = true) {rr : Nat → Option (List Nat)}
    {rids : List Nat} (hk : get_dtls_keys rr m = (none, rids))
    (pskAlloc : Bool) :
    get_config true pskAlloc rm rr info =
      (none, info,
       .readModeRes :: transport_events info ++ rids.map .credentialRead) := by
  simp [get_config, hm, ht, hk]

/-- Resolver run aborted by descriptor initialization. -/
theorem get_config_init_fail {rm : Option Int} {m : SecurityMode}
    (hm : get_security_mode rm = .ok m) {info : ConnectionInfo}
    (ht : transport_ok m info = true) {rr : Nat → Option (List Nat)}
    {keys : DtlsKeys} {rids : List Nat}
    (hk : get_dtls_keys rr m = (some keys, rids)) {pskAlloc : Bool}
    (hi : init_security pskAlloc m keys = none) :
    get_config true pskAlloc rm rr info =
      (none, info,
       .readModeRes :: transport_events info ++ rids.map .credentialRead) := by
  simp [get_config, hm, ht, hk, hi]

/-- Successful resolver run. -/
theorem get_config_success {rm : Option Int} {m : SecurityMode}
    (hm : get_security_mode rm = .ok m) {info : ConnectionInfo}
    (ht : transport_ok m info = true) {rr : Nat → Option (List Nat)}
    {keys : DtlsKeys} {rids : List Nat}
    (hk : get_dtls_keys rr m = (some keys, rids)) {pskAlloc : Bool}
    {si : SecurityInfo} {dane : Option (List Nat)}
    (hi : init_security pskAlloc m keys = some (si, dane)) :
    get_config true pskAlloc rm rr info =
      (some ⟨si, dane⟩, { info with is_encrypted := m ≠ .nosec },
       .readModeRes :: transport_events info ++ rids.map .credentialRead) := by
  simp [get_config, hm, ht, hk, hi]

/-! ## Claim theorems -/

/-- C4: Scenario A on the portfolio object: starting from an empty object,
after create_instance(1), writing slot 0 of instance 1 = "X",
transaction_begin, writing slot 0 of instance 1 = "Y", create_instance(2),
and transaction_rollback, the live instance set is exactly {1}, slot 0 of
instance 1 is present with value "X", and instance 2 is absent. -/
theorem C4_scenarioA :
    scenarioA.map
        (fun obj =>
          (obj.instances.map (·.iid),
           (portfolio_find_instance obj.instances 1).map
             (fun i => (i.has_identity 0, i.identity_value 0)),
           (portfolio_find_instance obj.instances 2).isNone)) =
      .ok ([1], some (true, "X"), true) := by
  rfl

/-- C1 as stated is refuted on the time-like object: the contract-respecting
mutation `create_instance(5)` applied between transaction_begin and
transaction_rollback survives the rollback — the time object's transaction
handlers save and restore only the Application Type strings, not instance
existence — so the post-rollback instance set {0, 5} differs from the
pre-begin set {0}. -/
theorem C1_counterexample :
    time_respects [RegOp.create 5] (time_transaction_begin time_object_create) = true ∧
    (time_transaction_rollback
          (time_apply_ops [RegOp.create 5]
            (time_transaction_begin time_object_create))).map (·.iid) ≠
      time_object_create.map (·.iid) := by
  exact ⟨rfl, by decide⟩

/-- C2 as stated is refuted on the portfolio object: with instance 1 already
present, `instance_create(1)` does not fail with AlreadyExists — it performs
no presence check at all, reports success, and inserts a duplicate node, so
the list of iids becomes [1, 1]. -/
theorem C2_counterexample :
    (portfolio_instance_create true
          { instances := [portfolio_blank_instance 1], backup := [] } 1).map
        (fun obj => obj.instances.map (·.iid)) = .ok [1, 1] := by
  rfl

/-- C3 as stated is refuted: with an empty peer field the C designated
initializer of `avs_net_certificate_info_t` leaves `server_cert_validation`
zeroed, so server-certificate validation is NOT enabled (the claim says it
is still enabled but unpinned); no pinning record is set either. -/
theorem C3_counterexample :
    (init_cert_security
          { pk_or_identity := [1], server_pk_or_identity := [], secret_key := [2] }).1.server_cert_validation =
        false ∧
      (init_cert_security
          { pk_or_identity := [1], server_pk_or_identity := [], secret_key := [2] }).2 =
        none := by
  decide

/-- C1 (amended): the rollback law holds in full for the portfolio-like
object — for any contract-respecting mutation sequence (instance creation,
instance removal, slot writes) applied between transaction_begin (with no
outstanding backup, allocation succeeding) and transaction_rollback, the
post-rollback object equals the pre-begin object, including which instances
exist and every slot's presence flag and value.  For the time-like object
the law holds only for sequences of resource writes: rollback restores each
instance's observable state (iid, application type, notify bookkeeping);
instance creation and removal are not rolled back (see the
counterexample). -/
theorem C1_rollback_amended :
    (∀ (obj : Portfolio) (ops : List PfOp) (s : Portfolio),
        obj.backup = [] →
        portfolio_transaction_begin true obj = .ok s →
        portfolio_respects ops s = true →
        portfolio_transaction_rollback (portfolio_apply_ops ops s) = obj) ∧
    (∀ (l : List TimeInstance) (ws : List (Nat × String)),
        time_observable
            (time_transaction_rollback
              (time_apply_writes ws (time_transaction_begin l))) =
          time_observable l) := by
  constructor
  · intro obj ops s hb hbegin _
    have hs : s = { obj with backup := obj.instances } := by
      simp only [portfolio_transaction_begin, true_or, if_pos] at hbegin
      cases hbegin
      rfl
    subst hs
    have hback := portfolio_apply_ops_backup ops { obj with backup := obj.instances }
    unfold portfolio_transaction_rollback
    rw [hback]
    cases obj with
    | mk insts back =>
      simp only at hb
      rw [hb]
  · intro l ws
    have h1 : time_observable
        (time_transaction_rollback (time_apply_writes ws (time_transaction_begin l))) =
        (time_apply_writes ws (time_transaction_begin l)).map
          (fun i => (i.iid, i.application_type_backup, i.last_notify_timestamp)) := by
      simp only [time_observable, time_transaction_rollback, List.map_map]
      rfl
    rw [h1, time_apply_writes_skeleton]
    simp only [time_transaction_begin, List.map_map]
    rfl

/-- Witness for the amended rollback law at concrete inputs: a portfolio with
instance 1 and a fresh transaction, a create of instance 2 inside the
transaction; and the freshly created time object with one write. -/
theorem C1_rollback_amended_witness :
    portfolio_transaction_rollback
        (portfolio_apply_ops [PfOp.create 2]
          { instances := [portfolio_blank_instance 1],
            backup := [portfolio_blank_instance 1] }) =
      { instances := [portfolio_blank_instance 1], backup := [] } ∧
    time_observable
        (time_transaction_rollback
          (time_apply_writes [(0, "x")] (time_transaction_begin time_object_create))) =
      time_observable time_object_create := by
  constructor
  · exact C1_rollback_amended.1
      { instances := [portfolio_blank_instance 1], backup := [] }
      [PfOp.create 2]
      { instances := [portfolio_blank_instance 1],
        backup := [portfolio_blank_instance 1] }
      rfl rfl (by decide)
  · exact C1_rollback_amended.2 time_object_create [(0, "x")]

/-- C5: for every classified security mode and transport descriptor, an
`Undefined` transport security accepts every mode; `Encrypted` is accepted
exactly with the modes other than NoSecurity; `PlainText` is accepted exactly
with NoSecurity; and when no transport descriptor is known the resolver skips
the check entirely (its trace never contains a transport-check event). -/
theorem C5_transport_check :
    (∀ (m : SecurityMode) (ti : TransportInfo),
        (ti.security = .undefined → security_matches_transport m ti = true) ∧
        (ti.security = .encrypted →
          (security_matches_transport m ti = true ↔ m ≠ .nosec)) ∧
        (ti.security = .plaintext →
          (security_matches_transport m ti = true ↔ m = .nosec))) ∧
    (∀ (alloc pskAlloc : Bool) (rm : Option Int)
        (rr : Nat → Option (List Nat)) (info : ConnectionInfo),
        info.transport_info = none →
        ResolverEvent.transportCheck ∉
          (get_config alloc pskAlloc rm rr info).2.2) := by
  constructor
  · intro m ti
    refine ⟨?_, ?_, ?_⟩ <;> intro h <;> cases m <;>
      simp [security_matches_transport, h]
  · intro alloc pskAlloc rm rr info h
    have hte : transport_events info = [] := by simp [transport_events, h]
    cases alloc with
    | false => rw [get_config_alloc_fail]; simp
    | true =>
      cases hm : get_security_mode rm with
      | error e => rw [get_config_mode_fail hm]; simp
      | ok m =>
        have hto : transport_ok m info = true := by rw [transport_ok, h]
        cases hk : get_dtls_keys rr m with
        | mk fst rids =>
          cases fst with
          | none => rw [get_config_keys_fail hm hto hk]; simp [hte]
          | some keys =>
            cases hi : init_security pskAlloc m keys with
            | none => rw [get_config_init_fail hm hto hk hi]; simp [hte]
            | some cfg =>
              cases cfg with
              | mk si dane =>
                rw [get_config_success hm hto hk hi]; simp [hte]

/-- Witness for the transport compatibility check at concrete inputs. -/
theorem C5_transport_check_witness :
    security_matches_transport .certificate
        { security := .undefined, uri_scheme := "coap" } = true ∧
    (security_matches_transport .psk
        { security := .encrypted, uri_scheme := "coaps" } = true ↔
      SecurityMode.psk ≠ .nosec) ∧
    (security_matches_transport .nosec
        { security := .plaintext, uri_scheme := "coap" } = true ↔
      SecurityMode.nosec = .nosec) ∧
    ResolverEvent.transportCheck ∉
      (get_config true true (some ANJAY_SECURITY_NOSEC) (fun _ => none)
          { transport_info := none, is_encrypted := false }).2.2 := by
  refine ⟨?_, ?_, ?_, ?_⟩
  · exact (C5_transport_check.1 .certificate
      { security := .undefined, uri_scheme := "coap" }).1 rfl
  · exact (C5_transport_check.1 .psk
      { security := .encrypted, uri_scheme := "coaps" }).2.1 rfl
  · exact (C5_transport_check.1 .nosec
      { security := .plaintext, uri_scheme := "coap" }).2.2 rfl
  · exact C5_transport_check.2 true true (some ANJAY_SECURITY_NOSEC)
      (fun _ => none) { transport_info := none, is_encrypted := false } rfl

/-- C7: the classifier rejects the code reserved for RawKey with an
UnsupportedMode error, distinct from the MalformedMode error returned for
out-of-enumeration values; in either case the resolver aborts with a trace
containing no transport check and no credential read; the four supported
codes classify successfully. -/
theorem C7_mode_classifier :
    get_security_mode (some ANJAY_SECURITY_RPK) = .error .unsupportedMode ∧
    SecModeError.unsupportedMode ≠ SecModeError.malformedMode ∧
    (∀ v : Int, v ≠ ANJAY_SECURITY_NOSEC → v ≠ ANJAY_SECURITY_PSK →
      v ≠ ANJAY_SECURITY_CERTIFICATE → v ≠ ANJAY_SECURITY_EST →
      v ≠ ANJAY_SECURITY_RPK →
      get_security_mode (some v) = .error .malformedMode) ∧
    get_security_mode (some ANJAY_SECURITY_NOSEC) = .ok .nosec ∧
    get_security_mode (some ANJAY_SECURITY_PSK) = .ok .psk ∧
    get_security_mode (some ANJAY_SECURITY_CERTIFICATE) = .ok .certificate ∧
    get_security_mode (some ANJAY_SECURITY_EST) = .ok .est ∧
    (∀ (pskAlloc : Bool) (rr : Nat → Option (List Nat)) (info : ConnectionInfo),
      ∀ v : Int, get_security_mode (some v) = .error .unsupportedMode ∨
        get_security_mode (some v) = .error .malformedMode →
      get_config true pskAlloc (some v) rr info = (none, info, [.readModeRes])) := by
  refine ⟨rfl, by decide, ?_, rfl, rfl, rfl, rfl, ?_⟩
  · intro v h3 h0 h2 h4 h1
    simp only [ANJAY_SECURITY_RPK, ANJAY_SECURITY_NOSEC, ANJAY_SECURITY_PSK,
      ANJAY_SECURITY_CERTIFICATE, ANJAY_SECURITY_EST] at h0 h1 h2 h3 h4
    simp [get_security_mode, ANJAY_SECURITY_RPK, ANJAY_SECURITY_NOSEC,
      ANJAY_SECURITY_PSK, ANJAY_SECURITY_CERTIFICATE, ANJAY_SECURITY_EST,
      h0, h1, h2, h3, h4]
  · intro pskAlloc rr info v h
    cases h with
    | inl h => exact get_config_mode_fail h pskAlloc rr info
    | inr h => exact get_config_mode_fail h pskAlloc rr info

/-- Witness for the classifier claim: the RawKey code through the full
resolver at a concrete environment. -/
theorem C7_mode_classifier_witness :
    get_security_mode (some 9) = .error .malformedMode ∧
    get_config true true (some ANJAY_SECURITY_RPK) (fun _ => none)
        { transport_info := none, is_encrypted := false } =
      (none, { transport_info := none, is_encrypted := false },
       [.readModeRes]) := by
  constructor
  · exact C7_mode_classifier.2.2.1 9 (by decide) (by decide) (by decide)
      (by decide) (by decide)
  · exact C7_mode_classifier.2.2.2.2.2.2.2 true (fun _ => none)
      { transport_info := none, is_encrypted := false }
      ANJAY_SECURITY_RPK (Or.inl C7_mode_classifier.1)

/-- C6: credential extraction is a no-op success for NoSecurity; for every
other mode the local identity and the secret key are required (a failed read
aborts with an error) and the peer identity is required unless the mode is
PreSharedKey; under PreSharedKey a failing peer read leaves the peer field
empty and extraction succeeds (Scenario C); with all reads succeeding the
three buffers are filled. -/
theorem C6_credential_extractor :
    (∀ rr : Nat → Option (List Nat),
        get_dtls_keys rr .nosec =
          (some { pk_or_identity := [], server_pk_or_identity := [],
                  secret_key := [] }, [])) ∧
    (∀ (rr : Nat → Option (List Nat)) (m : SecurityMode), m ≠ .nosec →
        rr RID_SECURITY_PK_OR_IDENTITY = none →
        (get_dtls_keys rr m).1 = none) ∧
    (∀ (rr : Nat → Option (List Nat)) (m : SecurityMode), m ≠ .nosec →
        ∀ pk, rr RID_SECURITY_PK_OR_IDENTITY = some pk →
        rr RID_SECURITY_SECRET_KEY = none →
        (get_dtls_keys rr m).1 = none) ∧
    (∀ (rr : Nat → Option (List Nat)) (m : SecurityMode),
        m ≠ .nosec → m ≠ .psk →
        ∀ pk, rr RID_SECURITY_PK_OR_IDENTITY = some pk →
        rr RID_SECURITY_SERVER_PK_OR_IDENTITY = none →
        (get_dtls_keys rr m).1 = none) ∧
    (∀ (rr : Nat → Option (List Nat)) (pk sk : List Nat),
        rr RID_SECURITY_PK_OR_IDENTITY = some pk →
        rr RID_SECURITY_SERVER_PK_OR_IDENTITY = none →
        rr RID_SECURITY_SECRET_KEY = some sk →
        (get_dtls_keys rr .psk).1 =
          some { pk_or_identity := pk, server_pk_or_identity := [],
                 secret_key := sk }) ∧
    (∀ (rr : Nat → Option (List Nat)) (m : SecurityMode)
        (pk spk sk : List Nat), m ≠ .nosec →
        rr RID_SECURITY_PK_OR_IDENTITY = some pk →
        rr RID_SECURITY_SERVER_PK_OR_IDENTITY = some spk →
        rr RID_SECURITY_SECRET_KEY = some sk →
        (get_dtls_keys rr m).1 =
          some { pk_or_identity := pk, server_pk_or_identity := spk,
                 secret_key := sk }) := by
  refine ⟨?_, ?_, ?_, ?_, ?_, ?_⟩
  · intro rr; rfl
  · intro rr m hm hpk
    simp [get_dtls_keys, hm, hpk]
  · intro rr m hm pk hpk hsk
    by_cases hp : m = .psk
    · subst hp
      cases hspk : rr RID_SECURITY_SERVER_PK_OR_IDENTITY with
      | none => simp [get_dtls_keys, hpk, hsk, hspk]
      | some spk => simp [get_dtls_keys, hpk, hsk, hspk]
    · cases hspk : rr RID_SECURITY_SERVER_PK_OR_IDENTITY with
      | none => simp [get_dtls_keys, hm, hp, hpk, hsk, hspk]
      | some spk => simp [get_dtls_keys, hm, hp, hpk, hsk, hspk]
  · intro rr m hm hp pk hpk hspk
    simp [get_dtls_keys, hm, hp, hpk, hspk]
  · intro rr pk sk hpk hspk hsk
    simp [get_dtls_keys, hpk, hspk, hsk]
  · intro rr m pk spk sk hm hpk hspk hsk
    by_cases hp : m = .psk
    · subst hp; simp [get_dtls_keys, hpk, hspk, hsk]
    · simp [get_dtls_keys, hm, hp, hpk, hspk, hsk]

/-- Witness for the credential extractor at a concrete environment
(Scenario C: PreSharedKey with the peer resource unreadable). -/
theorem C6_credential_extractor_witness :
    (get_dtls_keys
        (fun rid => if rid = RID_SECURITY_PK_OR_IDENTITY then some [10]
                    else if rid = RID_SECURITY_SECRET_KEY then some [20]
                    else none) .psk).1 =
      some { pk_or_identity := [10], server_pk_or_identity := [],
             secret_key := [20] } := by
  exact C6_credential_extractor.2.2.2.2.1
    (fun rid => if rid = RID_SECURITY_PK_OR_IDENTITY then some [10]
                else if rid = RID_SECURITY_SECRET_KEY then some [20]
                else none)
    [10] [20] (by decide) (by decide) (by decide)

/-- C3 (amended): in Certificate/EST mode the descriptor holds the local
identity as the client certificate chain bytes and the secret key as the
private key bytes; if the extracted peer field is non-empty, a DANE TLSA
pinning record is set over that data and server-certificate validation is
enabled as DANE-assisted; if the peer field is empty, no pinning record is
set and server-certificate validation remains disabled (the designated
initializer leaves the flag zeroed) — not, as the claim stated, still
enabled but unpinned. -/
theorem C3_cert_builder_amended :
    ∀ keys : DtlsKeys,
      (init_cert_security keys).1.client_cert = keys.pk_or_identity ∧
      (init_cert_security keys).1.client_key = keys.secret_key ∧
      (∀ pskAlloc : Bool,
        init_security pskAlloc .certificate keys =
          some (.certificates (init_cert_security keys).1,
                (init_cert_security keys).2) ∧
        init_security pskAlloc .est keys =
          some (.certificates (init_cert_security keys).1,
                (init_cert_security keys).2)) ∧
      (keys.server_pk_or_identity ≠ [] →
        (init_cert_security keys).1.server_cert_validation = true ∧
        (init_cert_security keys).1.dane = true ∧
        (init_cert_security keys).2 = some keys.server_pk_or_identity) ∧
      (keys.server_pk_or_identity = [] →
        (init_cert_security keys).1.server_cert_validation = false ∧
        (init_cert_security keys).1.dane = false ∧
        (init_cert_security keys).2 = none) := by
  intro keys
  by_cases h : keys.server_pk_or_identity = []
  · simp [init_security, init_cert_security, h]
  · have hlen : keys.server_pk_or_identity.length > 0 :=
      List.length_pos.mpr h
    simp [init_security, init_cert_security, h, hlen]

/-- Witness for the certificate builder at concrete key material with a
non-empty peer field. -/
theorem C3_cert_builder_amended_witness :
    (init_cert_security
          { pk_or_identity := [1], server_pk_or_identity := [9],
            secret_key := [2] }).1.server_cert_validation = true ∧
    (init_cert_security
          { pk_or_identity := [1], server_pk_or_identity := [9],
            secret_key := [2] }).2 = some [9] := by
  have h := (C3_cert_builder_amended
    { pk_or_identity := [1], server_pk_or_identity := [9],
      secret_key := [2] }).2.2.2.1 (by decide)
  exact ⟨h.1, h.2.2⟩

/-- C10: the resolver returns a descriptor iff allocation, classification,
the (possibly skipped) transport check, credential extraction and descriptor
initialization all succeed; on any failure it returns NULL with the
connection info (in particular is_encrypted) unchanged; on success it sets
is_encrypted exactly when the classified mode is not NoSecurity, leaving the
transport descriptor unchanged. -/
theorem C10_resolver_atomicity :
    ∀ (alloc pskAlloc : Bool) (rm : Option Int)
      (rr : Nat → Option (List Nat)) (info : ConnectionInfo),
      ((get_config alloc pskAlloc rm rr info).1.isSome = true ↔
        alloc = true ∧ ∃ m : SecurityMode, get_security_mode rm = .ok m ∧
          transport_ok m info = true ∧
          ∃ keys : DtlsKeys, (get_dtls_keys rr m).1 = some keys ∧
            (init_security pskAlloc m keys).isSome = true) ∧
      ((get_config alloc pskAlloc rm rr info).1 = none →
        (get_config alloc pskAlloc rm rr info).2.1 = info) ∧
      (∀ m : SecurityMode, get_security_mode rm = .ok m →
        (get_config alloc pskAlloc rm rr info).1.isSome = true →
        (get_config alloc pskAlloc rm rr info).2.1.is_encrypted =
          decide (m ≠ SecurityMode.nosec) ∧
        (get_config alloc pskAlloc rm rr info).2.1.transport_info =
          info.transport_info) := by
  intro alloc pskAlloc rm rr info
  cases alloc with
  | false => simp [get_config_alloc_fail]
  | true =>
    cases hm : get_security_mode rm with
    | error e => simp [get_config_mode_fail hm, hm]
    | ok m =>
      cases hto : transport_ok m info with
      | false => simp [get_config_transport_fail hm hto, hm, hto]
      | true =>
        cases hk : get_dtls_keys rr m with
        | mk fst rids =>
          cases fst with
          | none =>
            have h1 : (get_dtls_keys rr m).1 = none := by rw [hk]
            simp [get_config_keys_fail hm hto hk, hm, hto, h1]
          | some keys =>
            have h1 : (get_dtls_keys rr m).1 = some keys := by rw [hk]
            cases hi : init_security pskAlloc m keys with
            | none =>
              simp [get_config_init_fail hm hto hk hi, hm, hto, h1, hi]
            | some cfg =>
              cases cfg with
              | mk si dane =>
                simp [get_config_success hm hto hk hi, hm, hto, h1, hi]

/-- Witness for resolver atomicity: a failed allocation leaves the
connection info untouched. -/
theorem C10_resolver_atomicity_witness :
    (get_config false true (some 0) (fun _ => none)
        { transport_info := none, is_encrypted := false }).2.1 =
      { transport_info := none, is_encrypted := false } := by
  exact (C10_resolver_atomicity false true (some 0) (fun _ => none)
      { transport_info := none, is_encrypted := false }).2.1 rfl

/-- C2 (amended): create_instance performs no AlreadyExists check — a
present iid is excluded only by the caller contract (asserted in the time
object, wholly unchecked in the portfolio, which would silently insert a
duplicate; see the counterexample).  On allocation failure both handlers
fail with the internal error (the code's only allocation-failure error);
otherwise they report success, insert the new instance preserving strict
ascending order, and zero-initialize the mode-specific fields (empty string
buffer for the time object; all presence flags false and empty values for
the portfolio). -/
theorem C2_create_amended :
    (∀ (l : List TimeInstance) (iid : Nat),
        time_instance_create false l iid = .error .internal) ∧
    (∀ (obj : Portfolio) (iid : Nat),
        portfolio_instance_create false obj iid = .error .internal) ∧
    (∀ (l : List TimeInstance) (iid : Nat),
        l.Pairwise (fun a b => a.iid < b.iid) →
        (∀ x ∈ l, x.iid ≠ iid) →
        time_instance_create true l iid =
          .ok (time_insert (init_instance iid) l) ∧
        (time_insert (init_instance iid) l).Pairwise
          (fun a b => a.iid < b.iid) ∧
        init_instance iid ∈ time_insert (init_instance iid) l ∧
        (init_instance iid).application_type = "") ∧
    (∀ (obj : Portfolio) (iid : Nat),
        obj.instances.Pairwise (fun a b => a.iid < b.iid) →
        (∀ x ∈ obj.instances, x.iid ≠ iid) →
        portfolio_instance_create true obj iid =
          .ok { obj with
                instances :=
                  portfolio_insert (portfolio_blank_instance iid)
                    obj.instances } ∧
        (portfolio_insert (portfolio_blank_instance iid)
            obj.instances).Pairwise (fun a b => a.iid < b.iid) ∧
        portfolio_blank_instance iid ∈
          portfolio_insert (portfolio_blank_instance iid) obj.instances ∧
        (∀ k, (portfolio_blank_instance iid).has_identity k = false ∧
              (portfolio_blank_instance iid).identity_value k = "")) := by
  refine ⟨fun l iid => rfl, fun obj iid => rfl, ?_, ?_⟩
  · intro l iid hs hf
    exact ⟨rfl, time_insert_pairwise hs hf, time_insert_self_mem _ l, rfl⟩
  · intro obj iid hs hf
    exact ⟨rfl, portfolio_insert_pairwise hs hf,
      portfolio_insert_self_mem _ obj.instances, fun k => ⟨rfl, rfl⟩⟩

/-- Witness for the amended create contract at concrete inputs. -/
theorem C2_create_amended_witness :
    time_instance_create false [] 7 = .error .internal ∧
    portfolio_instance_create false portfolio_object_create 7 =
      .error .internal ∧
    time_instance_create true [] 7 = .ok (time_insert (init_instance 7) []) ∧
    portfolio_instance_create true portfolio_object_create 7 =
      .ok { portfolio_object_create with
            instances := portfolio_insert (portfolio_blank_instance 7)
                portfolio_object_create.instances } := by
  exact ⟨C2_create_amended.1 [] 7,
    C2_create_amended.2.1 portfolio_object_create 7,
    (C2_create_amended.2.2.1 [] 7 (by simp) (by simp)).1,
    (C2_create_amended.2.2.2 portfolio_object_create 7
      (by simp [portfolio_object_create]) (by simp [portfolio_object_create])).1⟩

/-- C8: every contract-respecting sequence of create/remove calls, starting
from each object's creation state, keeps the sequence produced by
list_instances strictly ascending with no duplicate identifiers, for both
objects. -/
theorem C8_sorted_invariant :
    (∀ ops : List RegOp,
        time_respects ops time_object_create = true →
        ((time_apply_ops ops time_object_create).map (·.iid)).Pairwise
          (· < ·)) ∧
    (∀ ops : List RegOp,
        portfolio_reg_respects ops portfolio_object_create = true →
        ((portfolio_apply_reg_ops ops portfolio_object_create).instances.map
            (·.iid)).Pairwise (· < ·)) := by
  constructor
  · intro ops hr
    refine List.pairwise_map.mpr ?_
    exact time_apply_ops_pairwise ops time_object_create
      (by simp [time_object_create]) hr
  · intro ops hr
    refine List.pairwise_map.mpr ?_
    exact portfolio_apply_reg_ops_pairwise ops portfolio_object_create
      (by simp [portfolio_object_create]) hr

/-- Witness for the sortedness invariant at concrete mutation sequences. -/
theorem C8_sorted_invariant_witness :
    ((time_apply_ops [RegOp.create 5, RegOp.remove 0]
        time_object_create).map (·.iid)).Pairwise (· < ·) ∧
    ((portfolio_apply_reg_ops [RegOp.create 2, RegOp.create 1]
        portfolio_object_create).instances.map (·.iid)).Pairwise (· < ·) := by
  exact ⟨C8_sorted_invariant.1 [RegOp.create 5, RegOp.remove 0] (by decide),
    C8_sorted_invariant.2 [RegOp.create 2, RegOp.create 1] (by decide)⟩

/-- C9: notify computes the current timestamp once; an instance whose
bookkeeping timestamp equals it is left alone (and no notification issued);
every other instance gets a change notification, and its bookkeeping field
is set to the current timestamp exactly when the notification attempt
succeeds — a failure leaves the field unchanged, so the instance is retried
on the next invocation. -/
theorem C9_time_notify (current_timestamp : Int) (notifyOk : Nat → Bool)
    (l : List TimeInstance) :
    (time_object_notify current_timestamp notifyOk l).1 =
      l.map (fun it =>
        if it.last_notify_timestamp ≠ current_timestamp ∧
            notifyOk it.iid = true then
          { it with last_notify_timestamp := current_timestamp }
        else it) ∧
    (time_object_notify current_timestamp notifyOk l).2 =
      (l.filter
          (fun it => it.last_notify_timestamp != current_timestamp)).map
        (·.iid) := by
  induction l with
  | nil => exact ⟨rfl, rfl⟩
  | cons it rest ih =>
    simp only [time_object_notify]
    by_cases h1 : it.last_notify_timestamp = current_timestamp
    · simp [h1, ih.1, ih.2]
    · by_cases h2 : notifyOk it.iid
      · simp [h1, h2, ih.1, ih.2]
      · simp [h1, h2, ih.1, ih.2]

end Anjay
